import Mathlib

/-!
# Verification of the uncord gateway client

Shallow embedding of `src/lib/gateway/gateway-client.ts` (class `GatewayClient`)
and the handler wrapper of `src/lib/gateway/gateway-context.tsx`
(`useGatewayEvent`).

The client is single-threaded and event-driven: every method is modelled as a
pure function from a client state (the instance's private fields) to a new
state paired with a list of observable actions, in the order the source
performs them.  JavaScript values produced by `JSON.parse` are modelled by
`JsValue`, with JS truthiness made explicit.  The `await this.getToken()`
suspension point inside `handleHello` is modelled by passing the fetched token
(and the state at resumption) as arguments; the trace records the `getToken`
request as the first action of the handler, exactly where the source performs
it.
-/

namespace Gateway

/-- A JavaScript value as produced by `JSON.parse`. -/
inductive JsValue where
  | null : JsValue
  | bool (b : Bool) : JsValue
  | num (q : ℚ) : JsValue
  | str (s : String) : JsValue
  | arr (elems : List JsValue) : JsValue
  | obj (fields : List (String × JsValue)) : JsValue

/-- JS truthiness of a value (`if (v)`): `null`, `false`, `0` and `""` are
falsy; arrays and objects are always truthy. -/
def jsTruthy : JsValue → Bool
  | .null => false
  | .bool b => b
  | .num q => q ≠ 0
  | .str s => s ≠ ""
  | .arr _ => true
  | .obj _ => true

/-- Truthiness of a possibly-absent value (`undefined` is falsy). -/
def jsTruthyOpt : Option JsValue → Bool
  | none => false
  | some v => jsTruthy v

/-- Property lookup on a JS object (`o[k]`); with duplicate keys the last
binding wins, as for `JSON.parse`. `none` is `undefined`. -/
def objGet (fields : List (String × JsValue)) (k : String) : Option JsValue :=
  fields.foldl (fun acc p => if p.1 = k then some p.2 else acc) none

/-- `isFrame`: `typeof d === "object" && d !== null && "op" in d &&
typeof d.op === "number"`.  A JSON array can never carry an `op` property. -/
def isFrame : JsValue → Bool
  | .obj fields =>
      match objGet fields "op" with
      | some (.num _) => true
      | _ => false
  | _ => false

/-- `isHelloData` on the (possibly absent) `d` field: duck-typed check for a
numeric `heartbeat_interval` property. -/
def isHelloData : Option JsValue → Bool
  | some (.obj fields) =>
      match objGet fields "heartbeat_interval" with
      | some (.num _) => true
      | _ => false
  | _ => false

/-- The `heartbeat_interval` number of a payload passing `isHelloData`. -/
def helloInterval (d : Option JsValue) : ℚ :=
  match d with
  | some (.obj fields) =>
      match objGet fields "heartbeat_interval" with
      | some (.num q) => q
      | _ => 0
  | _ => 0

/-- `isReadyData`: `typeof d === "object" && d !== null` (arrays included). -/
def isReadyData : Option JsValue → Bool
  | some (.obj _) => true
  | some (.arr _) => true
  | _ => false

/-- `frame.d.session_id` (undefined on arrays and absent payloads). -/
def sessionIdOf : Option JsValue → Option JsValue
  | some (.obj fields) => objGet fields "session_id"
  | _ => none

-- Gateway opcodes (inlined constants in the source).
def OP_DISPATCH : ℚ := 0
def OP_HEARTBEAT : ℚ := 1
def OP_IDENTIFY : ℚ := 2
def OP_PRESENCE_UPDATE : ℚ := 3
def OP_RESUME : ℚ := 6
def OP_RECONNECT : ℚ := 7
def OP_INVALID_SESSION : ℚ := 9
def OP_HELLO : ℚ := 10
def OP_HEARTBEAT_ACK : ℚ := 11

def CLOSE_INVALID_TOKEN : Nat := 4004
def CLOSE_RATE_LIMITED : Nat := 4008

def MAX_BACKOFF_MS : ℚ := 30000
def RATE_LIMIT_WAIT_MS : ℚ := 60000

/-- `deriveWsUrl`: strip trailing slashes, rewrite a leading `http` scheme to
`ws`, append the gateway path. -/
def deriveWsUrl (baseUrl : String) : String :=
  let url := baseUrl.dropRightWhile (· = '/')
  let wsUrl := if url.startsWith "http" then "ws" ++ url.drop 4 else url
  wsUrl ++ "/api/v1/gateway"

/-- WebSocket readyState values. -/
inductive ReadyState where
  | CONNECTING : ReadyState
  | OPEN : ReadyState
  | CLOSING : ReadyState
  | CLOSED : ReadyState
deriving DecidableEq

/-- One WebSocket object; `id` models reference identity (`ws !== this.ws`). -/
structure Socket where
  id : Nat
  readyState : ReadyState

/-- A frame the client passes to `send` (serialized with `JSON.stringify`). -/
inductive OutFrame where
  | heartbeat : OutFrame
  | identify (token : String) : OutFrame
  | resume (token : String) (sessionId seqNum : JsValue) : OutFrame
  | presenceUpdate (status : String) : OutFrame

/-- Observable actions, recorded in the order the source performs them. -/
inductive Action where
  | createSocket (url : String) : Action
  | closeSocket (code : Nat) : Action
  | clearReconnectTimerAct : Action
  | clearHeartbeatTimerAct : Action
  | startReconnectTimer (delayMs : ℤ) : Action
  | startHeartbeatTimer (intervalMs : ℚ) : Action
  | sendCall (frame : OutFrame) : Action
  | wireSend (frame : OutFrame) : Action
  | emitEvent (key : JsValue) (payload : Option JsValue) (seqSeen : Option JsValue) : Action
  | getToken : Action
  | detachCallbacks : Action
  | spawnHello (intervalMs : ℚ) : Action
  | logWarn : Action

/-- The private fields of a `GatewayClient` instance.  `sessionId` and `seq`
are `Option JsValue` with `none` standing for JS `null`; `heartbeatTimer` and
`reconnectTimer` record whether the corresponding timer handle is non-null;
`listeners` is the registry keyed by event name (handlers are abstract ids). -/
structure ClientState where
  baseUrl : String
  ws : Option Socket
  heartbeatTimer : Bool
  heartbeatAckReceived : Bool
  reconnectTimer : Bool
  reconnectAttempts : Nat
  sessionId : Option JsValue
  seq : Option JsValue
  intentionalClose : Bool
  disposed : Bool
  listeners : List (String × List Nat)

/-- Field values set by the constructor. -/
def initState (baseUrl : String) : ClientState where
  baseUrl := baseUrl
  ws := none
  heartbeatTimer := false
  heartbeatAckReceived := true
  reconnectTimer := false
  reconnectAttempts := 0
  sessionId := none
  seq := none
  intentionalClose := false
  disposed := false
  listeners := []

/-- Is the current socket present and OPEN (`this.ws?.readyState === WebSocket.OPEN`)? -/
def wsIsOpen (s : ClientState) : Bool :=
  match s.ws with
  | some sock => sock.readyState = ReadyState.OPEN
  | none => false

/-- `this.ws?.close(code)`: emits the close call and moves the socket to
CLOSING; nothing happens when no socket is referenced. -/
def wsClose (s : ClientState) (code : Nat) : ClientState × List Action :=
  match s.ws with
  | some sock =>
      ({ s with ws := some { sock with readyState := ReadyState.CLOSING } },
       [Action.closeSocket code])
  | none => (s, [])

/-- `stopHeartbeat()`. -/
def stopHeartbeat (s : ClientState) : ClientState × List Action :=
  if s.heartbeatTimer then
    ({ s with heartbeatTimer := false }, [Action.clearHeartbeatTimerAct])
  else (s, [])

/-- `clearReconnectTimer()`. -/
def clearReconnectTimer (s : ClientState) : ClientState × List Action :=
  if s.reconnectTimer then
    ({ s with reconnectTimer := false }, [Action.clearReconnectTimerAct])
  else (s, [])

/-- `cleanup()`: stop the heartbeat and null the four socket callbacks. -/
def cleanup (s : ClientState) : ClientState × List Action :=
  let p := stopHeartbeat s
  match p.1.ws with
  | some _ => (p.1, p.2 ++ [Action.detachCallbacks])
  | none => (p.1, p.2)

/-- `send(frame)`: serializes on the wire only when the socket is OPEN;
`sendCall` records the invocation itself. -/
def send (s : ClientState) (f : OutFrame) : ClientState × List Action :=
  if wsIsOpen s then (s, [Action.sendCall f, Action.wireSend f])
  else (s, [Action.sendCall f])

/-- `sendPresenceUpdate(status)`. -/
def sendPresenceUpdate (s : ClientState) (status : String) : ClientState × List Action :=
  send s (.presenceUpdate status)

/-- `startHeartbeat(intervalMs)`: stop any previous timer, reset the liveness
flag to true, install the interval timer. -/
def startHeartbeat (s : ClientState) (intervalMs : ℚ) : ClientState × List Action :=
  let p := stopHeartbeat s
  ({ p.1 with heartbeatAckReceived := true, heartbeatTimer := true },
   p.2 ++ [Action.startHeartbeatTimer intervalMs])

/-- One tick of the heartbeat interval callback. -/
def heartbeatTick (s : ClientState) : ClientState × List Action :=
  if s.heartbeatAckReceived then
    send { s with heartbeatAckReceived := false } OutFrame.heartbeat
  else
    wsClose s 4000

/-- `frame.t === "READY"`. -/
def isReadyTag : Option JsValue → Bool
  | some (.str t) => t = "READY"
  | _ => false

/-- An `emitEvent` action tagged with the sequence number the invoked handler
would observe on the client at that moment. -/
def emitAct (s : ClientState) (key : JsValue) (payload : Option JsValue) : Action :=
  Action.emitEvent key payload s.seq

/-- `if (frame.s != null) this.seq = frame.s;` -/
def dispatchSeqUpdate (s : ClientState) (fields : List (String × JsValue)) : ClientState :=
  match objGet fields "s" with
  | some JsValue.null => s
  | some v => { s with seq := some v }
  | none => s

/-- The READY arm of `handleDispatch`: store a truthy `session_id` and emit
the synthetic `open` event. -/
def dispatchReady (s : ClientState) (fields : List (String × JsValue)) :
    ClientState × List Action :=
  if isReadyTag (objGet fields "t") && isReadyData (objGet fields "d") then
    let s2 :=
      match sessionIdOf (objGet fields "d") with
      | some v => if jsTruthy v then { s with sessionId := some v } else s
      | none => s
    (s2, [emitAct s2 (.str "open") (objGet fields "d")])
  else (s, [])

/-- `if (frame.t) this.emit(frame.t, frame.d);` -/
def dispatchEmitT (s : ClientState) (fields : List (String × JsValue)) : List Action :=
  match objGet fields "t" with
  | some t => if jsTruthy t then [emitAct s t (objGet fields "d")] else []
  | none => []

/-- `handleDispatch(frame)`: update `seq` from a non-null `frame.s` first,
then store the session id and emit `open` on READY, then emit under the
event-type key whenever `frame.t` is truthy. -/
def handleDispatch (s : ClientState) (fields : List (String × JsValue)) :
    ClientState × List Action :=
  let s1 := dispatchSeqUpdate s fields
  let p2 := dispatchReady s1 fields
  (p2.1, p2.2 ++ dispatchEmitT p2.1 fields)

/-- `handleHello(data)`: the handler immediately requests a token and awaits
it; `s` is the client state at resumption and `token` the accessor's result.
Disposal is re-checked after the await, the heartbeat monitor is started only
then, and Resume is chosen over Identify by `this.sessionId && this.seq !== null`. -/
def handleHello (s : ClientState) (intervalMs : ℚ) (token : Option String) :
    ClientState × List Action :=
  let pre := [Action.getToken]
  if s.disposed then (s, pre)
  else
    let p1 := startHeartbeat s intervalMs
    match token with
    | none =>
        let p2 := wsClose { p1.1 with intentionalClose := true } 4000
        (p2.1, pre ++ p1.2 ++ p2.2)
    | some t =>
        match p1.1.sessionId, p1.1.seq with
        | some sid, some sq =>
            if jsTruthy sid then
              let p2 := send p1.1 (.resume t sid sq)
              (p2.1, pre ++ p1.2 ++ p2.2)
            else
              let p2 := send p1.1 (.identify t)
              (p2.1, pre ++ p1.2 ++ p2.2)
        | _, _ =>
            let p2 := send p1.1 (.identify t)
            (p2.1, pre ++ p1.2 ++ p2.2)

/-- The `switch (frame.op)` routing of `handleMessage` for a valid frame.
The Hello case spawns the async `handleHello` (which suspends at its first
await); its later effects are modelled by `handleHello` itself. -/
def routeFrame (s : ClientState) (fields : List (String × JsValue)) (op : ℚ) :
    ClientState × List Action :=
  if op = OP_HELLO then
    if isHelloData (objGet fields "d") then
      (s, [Action.spawnHello (helloInterval (objGet fields "d"))])
    else (s, [])
  else if op = OP_DISPATCH then
    handleDispatch s fields
  else if op = OP_HEARTBEAT_ACK then
    ({ s with heartbeatAckReceived := true }, [])
  else if op = OP_RECONNECT then
    wsClose s 4000
  else if op = OP_INVALID_SESSION then
    let resumable := jsTruthyOpt (objGet fields "d")
    let s1 := if resumable then s else { s with sessionId := none, seq := none }
    wsClose s1 4000
  else (s, [])

/-- `handleMessage(raw)`: `parsed` is the result of `JSON.parse(raw)`
(`none` when it throws). A parse failure is logged and dropped; a parsed
value that is not a Frame is dropped silently. -/
def handleMessage (s : ClientState) (parsed : Option JsValue) :
    ClientState × List Action :=
  if s.disposed then (s, [])
  else
    match parsed with
    | none => (s, [Action.logWarn])
    | some v =>
        match v with
        | .obj fields =>
            match objGet fields "op" with
            | some (.num op) => routeFrame s fields op
            | _ => (s, [])
        | _ => (s, [])

/-- `scheduleReconnect(delayMs?)`: exponential base capped at
`MAX_BACKOFF_MS` unless an explicit delay is given, full jitter
`(rand − 0.5) × base` with `rand = Math.random() ∈ [0,1)`, rounded. -/
def scheduleReconnect (s : ClientState) (delayMs : Option ℚ) (rand : ℚ) :
    ClientState × List Action :=
  if s.disposed then (s, [])
  else
    let p1 := clearReconnectTimer s
    let base : ℚ := delayMs.getD (min (1000 * 2 ^ p1.1.reconnectAttempts) MAX_BACKOFF_MS)
    let jitter : ℚ := (rand - 1/2) * base
    let backoff : ℤ := round (base + jitter)
    ({ p1.1 with reconnectAttempts := p1.1.reconnectAttempts + 1, reconnectTimer := true },
     p1.2 ++ [Action.startReconnectTimer backoff])

/-- The `ws.onclose` callback installed by `connect`; `sockId` identifies the
socket the handler was installed on (for the `ws !== this.ws` guard),
`rand` feeds any scheduled backoff. -/
def onClose (s : ClientState) (sockId : Nat) (code : Nat) (reason : String)
    (rand : ℚ) : ClientState × List Action :=
  let p1 := cleanup s
  let s1 := p1.1
  let superseded :=
    match s1.ws with
    | some sock => sock.id ≠ sockId
    | none => true
  if s1.disposed || superseded then (s1, p1.2)
  else
    let closeEmit :=
      [emitAct s1 (.str "close")
        (some (.obj [("code", .num code), ("reason", .str reason)]))]
    if s1.intentionalClose then (s1, p1.2 ++ closeEmit)
    else if code = CLOSE_INVALID_TOKEN then
      let p2 := scheduleReconnect { s1 with sessionId := none, seq := none } none rand
      (p2.1, p1.2 ++ closeEmit ++ p2.2)
    else if code = CLOSE_RATE_LIMITED then
      let p2 := scheduleReconnect s1 (some RATE_LIMIT_WAIT_MS) rand
      (p2.1, p1.2 ++ closeEmit ++ p2.2)
    else
      let p2 := scheduleReconnect s1 none rand
      (p2.1, p1.2 ++ closeEmit ++ p2.2)

/-- The `ws.onopen` callback: the transport has opened the socket and the
attempt counter is reset. -/
def onOpen (s : ClientState) : ClientState × List Action :=
  match s.ws with
  | some sock =>
      ({ s with ws := some { sock with readyState := ReadyState.OPEN },
                reconnectAttempts := 0 }, [])
  | none => ({ s with reconnectAttempts := 0 }, [])

/-- `connect()`: no-op when disposed; otherwise clears the intentional-close
flag and any pending reconnect, tears down a lingering previous socket, and
opens a fresh one (identified by `newId`). -/
def connect (s : ClientState) (newId : Nat) : ClientState × List Action :=
  if s.disposed then (s, [])
  else
    let p1 := clearReconnectTimer { s with intentionalClose := false }
    let p2 :=
      match p1.1.ws with
      | some _ =>
          let pc := cleanup p1.1
          ({ pc.1 with ws := none }, pc.2 ++ [Action.closeSocket 1000])
      | none => (p1.1, [])
    ({ p2.1 with ws := some { id := newId, readyState := ReadyState.CONNECTING } },
     p1.2 ++ p2.2 ++ [Action.createSocket (deriveWsUrl s.baseUrl)])

/-- `disconnect()`: terminal teardown. -/
def disconnect (s : ClientState) : ClientState × List Action :=
  let p1 := clearReconnectTimer { s with disposed := true, intentionalClose := true }
  let p2 := cleanup p1.1
  match p2.1.ws with
  | some _ => ({ p2.1 with ws := none }, p1.2 ++ p2.2 ++ [Action.closeSocket 1000])
  | none => (p2.1, p1.2 ++ p2.2)

/-- The public operations a caller may interleave on one instance. -/
inductive PublicOp where
  | connectOp (newId : Nat) : PublicOp
  | disconnectOp : PublicOp

/-- Apply one public operation. -/
def applyOp (s : ClientState) : PublicOp → ClientState × List Action
  | .connectOp n => connect s n
  | .disconnectOp => disconnect s

/-- Run a sequence of public operations, concatenating their action traces. -/
def runOps (s : ClientState) : List PublicOp → ClientState × List Action
  | [] => (s, [])
  | op :: rest =>
      let p1 := applyOp s op
      let p2 := runOps p1.1 rest
      (p2.1, p1.2 ++ p2.2)

/-- Does an action create a socket or start a timer? -/
def isSpawnAction : Action → Bool
  | .createSocket _ => true
  | .startReconnectTimer _ => true
  | .startHeartbeatTimer _ => true
  | _ => false

/-!
## The event dispatch registry and the subscription wrapper

`GatewayClient.emit` iterates the handler set with a bare
`for (const handler of set) handler(data);` — under JS semantics an exception
thrown by a handler aborts the loop and propagates to the caller.  A handler
is modelled by its outcome when invoked.  `useGatewayEvent` registers not the
caller's handler but a wrapper that invokes it inside `try \x7b ... \x7d catch`,
logging any exception.
-/

/-- Outcome of invoking one handler. -/
inductive HandlerResult where
  | ok : HandlerResult
  | throws (msg : String) : HandlerResult

/-- The `emit` loop over the handler set, in iteration order: returns the
number of handlers actually invoked and the exception (if any) that escapes
`emit` into the transport callback. -/
def emitHandlers : List HandlerResult → Nat × Option String
  | [] => (0, none)
  | .ok :: rest =>
      let p := emitHandlers rest
      (p.1 + 1, p.2)
  | .throws m :: _ => (1, some m)

/-- The `stableHandler` wrapper of `useGatewayEvent`: invokes the inner
handler, catching and logging anything it throws, so the registered handler
itself never throws. -/
def stableHandler : HandlerResult → HandlerResult :=
  fun _ => HandlerResult.ok

/-!
## Reachability

One transition for every entry point of the instance: the public methods,
the transport callbacks and the timer callbacks.
-/

/-- One event-driven transition of a client instance. -/
inductive Step : ClientState → ClientState → Prop where
  | connectS (s : ClientState) (n : Nat) : Step s (connect s n).1
  | disconnectS (s : ClientState) : Step s (disconnect s).1
  | presenceS (s : ClientState) (status : String) :
      Step s (sendPresenceUpdate s status).1
  | messageS (s : ClientState) (parsed : Option JsValue) :
      Step s (handleMessage s parsed).1
  | helloS (s : ClientState) (i : ℚ) (tok : Option String) :
      Step s (handleHello s i tok).1
  | tickS (s : ClientState) : Step s (heartbeatTick s).1
  | closeS (s : ClientState) (sockId : Nat) (code : Nat) (reason : String) (rand : ℚ) :
      Step s (onClose s sockId code reason rand).1
  | openS (s : ClientState) : Step s (onOpen s).1
  | reconnectFires (s : ClientState) (n : Nat) : Step s (connect s n).1

/-- States a constructed instance can actually be in. -/
inductive Reachable : ClientState → Prop where
  | init (baseUrl : String) : Reachable (initState baseUrl)
  | step {s s' : ClientState} : Reachable s → Step s s' → Reachable s'

/-- A non-disposed state with one OPEN socket and no session, as right after a
successful transport open on a fresh client. -/
def liveState : ClientState :=
  { initState "http://example.com" with
      ws := some { id := 1, readyState := ReadyState.OPEN } }

/-- Discriminator: is this the token request? -/
def isGetTokenAct : Action → Bool
  | .getToken => true
  | _ => false

/-- Discriminator: does this action start the heartbeat interval timer? -/
def isStartHeartbeatAct : Action → Bool
  | .startHeartbeatTimer _ => true
  | _ => false

/-- The frame `handleHello` passes to `send` once a token is available:
Resume when `this.sessionId && this.seq !== null`, Identify otherwise. -/
def helloAuthFrame (s : ClientState) (t : String) : OutFrame :=
  match s.sessionId, s.seq with
  | some sid, some sq =>
      if jsTruthy sid then OutFrame.resume t sid sq else OutFrame.identify t
  | _, _ => OutFrame.identify t

/-- Every stored session id is a JS-truthy value (the source only ever stores
`frame.d.session_id` after a truthiness test). -/
def sessionTruthy (s : ClientState) : Prop :=
  ∀ v, s.sessionId = some v → jsTruthy v = true

/-- How one transition may change the stored session id: kept, cleared, or
replaced by a truthy value. -/
def sessionEvolves (o n : Option JsValue) : Prop :=
  n = o ∨ n = none ∨ ∃ v, n = some v ∧ jsTruthy v = true

/-!
## Helper lemmas
-/

theorem stopHeartbeat_fst (s : ClientState) :
    (stopHeartbeat s).1 = { s with heartbeatTimer := false } := by
  unfold stopHeartbeat
  split
  · rfl
  · next h =>
    simp only [Bool.not_eq_true] at h
    cases s
    simp_all

theorem clearReconnectTimer_fst (s : ClientState) :
    (clearReconnectTimer s).1 = { s with reconnectTimer := false } := by
  unfold clearReconnectTimer
  split
  · rfl
  · next h =>
    simp only [Bool.not_eq_true] at h
    cases s
    simp_all

theorem cleanup_fst (s : ClientState) :
    (cleanup s).1 = { s with heartbeatTimer := false } := by
  have h1 : (cleanup s).1 = (stopHeartbeat s).1 := by
    unfold cleanup
    cases h : (stopHeartbeat s).1.ws <;> simp [h]
  rw [h1, stopHeartbeat_fst]

theorem startHeartbeat_fst (s : ClientState) (i : ℚ) :
    (startHeartbeat s i).1
      = { s with heartbeatAckReceived := true, heartbeatTimer := true } := by
  simp only [startHeartbeat, stopHeartbeat_fst]

theorem startHeartbeat_snd (s : ClientState) (i : ℚ) :
    (startHeartbeat s i).2
      = (if s.heartbeatTimer then [Action.clearHeartbeatTimerAct] else [])
        ++ [Action.startHeartbeatTimer i] := by
  unfold startHeartbeat stopHeartbeat
  split <;> simp

theorem handleHello_some_eq (s : ClientState) (i : ℚ) (t : String)
    (hd : s.disposed = false) :
    handleHello s i (some t)
      = ((send (startHeartbeat s i).1 (helloAuthFrame (startHeartbeat s i).1 t)).1,
         Action.getToken :: ((startHeartbeat s i).2
           ++ (send (startHeartbeat s i).1 (helloAuthFrame (startHeartbeat s i).1 t)).2)) := by
  unfold handleHello helloAuthFrame
  rw [hd]
  simp only [Bool.false_eq_true, if_false]
  rcases hsid : (startHeartbeat s i).1.sessionId with _ | sid <;>
    rcases hsq : (startHeartbeat s i).1.seq with _ | sq <;>
    simp only [hsid, hsq] <;> try rfl
  by_cases htr : jsTruthy sid = true <;> simp [htr]

theorem handleHello_none_eq (s : ClientState) (i : ℚ) (hd : s.disposed = false) :
    handleHello s i none
      = ((wsClose { (startHeartbeat s i).1 with intentionalClose := true } 4000).1,
         Action.getToken :: ((startHeartbeat s i).2
           ++ (wsClose { (startHeartbeat s i).1 with intentionalClose := true } 4000).2)) := by
  unfold handleHello
  rw [hd]
  rfl

theorem handleHello_disposed_eq (s : ClientState) (i : ℚ) (tok : Option String)
    (hd : s.disposed = true) :
    handleHello s i tok = (s, [Action.getToken]) := by
  unfold handleHello
  rw [hd]
  rfl

theorem disconnect_eq (s : ClientState) :
    disconnect s
      = ({ s with disposed := true, intentionalClose := true,
                  reconnectTimer := false, heartbeatTimer := false, ws := none },
         (if s.reconnectTimer then [Action.clearReconnectTimerAct] else []) ++
         ((if s.heartbeatTimer then [Action.clearHeartbeatTimerAct] else []) ++
          (match s.ws with
           | some _ => [Action.detachCallbacks, Action.closeSocket 1000]
           | none => []))) := by
  obtain ⟨bu, ws, hbt, ack, rt, ra, sid, sq, ic, d, ls⟩ := s
  cases ws <;> cases hbt <;> cases rt <;>
    simp [disconnect, cleanup, stopHeartbeat, clearReconnectTimer]

theorem connect_disposed (s : ClientState) (n : Nat) (h : s.disposed = true) :
    connect s n = (s, []) := by
  simp [connect, h]

theorem disconnect_of_disposed (s : ClientState) :
    (disconnect s).1.disposed = true ∧ ∀ a ∈ (disconnect s).2, isSpawnAction a = false := by
  rw [disconnect_eq]
  refine ⟨rfl, ?_⟩
  intro a ha
  have hd : a = Action.clearReconnectTimerAct ∨ a = Action.clearHeartbeatTimerAct
      ∨ a = Action.detachCallbacks ∨ a = Action.closeSocket 1000 := by
    rcases hws : s.ws with _ | sock <;> cases hrt : s.reconnectTimer <;>
      cases hhb : s.heartbeatTimer <;> simp [hws, hrt, hhb] at ha <;> tauto
  rcases hd with h | h | h | h <;> simp [h, isSpawnAction]

theorem runOps_disposed (ops : List PublicOp) (s : ClientState) (h : s.disposed = true) :
    (runOps s ops).1.disposed = true
    ∧ ∀ a ∈ (runOps s ops).2, isSpawnAction a = false := by
  induction ops generalizing s with
  | nil => exact ⟨h, by simp [runOps]⟩
  | cons op rest ih =>
    cases op with
    | connectOp n =>
        have hc := connect_disposed s n h
        have hr := ih s h
        constructor
        · simpa [runOps, applyOp, hc] using hr.1
        · intro a ha
          simp only [runOps, applyOp, hc, List.nil_append] at ha
          exact hr.2 a ha
    | disconnectOp =>
        have hd := disconnect_of_disposed s
        have hr := ih (disconnect s).1 hd.1
        constructor
        · simpa [runOps, applyOp] using hr.1
        · intro a ha
          simp only [runOps, applyOp, List.mem_append] at ha
          rcases ha with ha | ha
          · exact hd.2 a ha
          · exact hr.2 a ha

/-- C1: once `disconnect()` has been called, the disposed flag is set and
stays set through every later `connect()`/`disconnect()` call; no later call
in the sequence ever creates a socket or starts a timer, and every later
`connect()` is a complete no-op (state unchanged, no actions). -/
theorem disposed_permanent_connect_noop (s : ClientState) (ops : List PublicOp) :
    (disconnect s).1.disposed = true
    ∧ (runOps (disconnect s).1 ops).1.disposed = true
    ∧ (∀ a ∈ (runOps (disconnect s).1 ops).2, isSpawnAction a = false)
    ∧ (∀ n, connect (runOps (disconnect s).1 ops).1 n
              = ((runOps (disconnect s).1 ops).1, [])) := by
  have h1 : (disconnect s).1.disposed = true := by rw [disconnect_eq]
  have h2 := runOps_disposed ops (disconnect s).1 h1
  exact ⟨h1, h2.1, h2.2, fun n => connect_disposed _ n h2.1⟩

/-- C5: on a heartbeat tick with the liveness flag down, the socket is closed
with code `4000` and no heartbeat is sent; with the flag up, the flag is
cleared and a heartbeat frame is handed to `send`, and nothing is closed. -/
theorem heartbeat_tick_spec (s : ClientState) (sock : Socket) (hws : s.ws = some sock) :
    (s.heartbeatAckReceived = false →
        (heartbeatTick s).2 = [Action.closeSocket 4000]
        ∧ (∀ f, Action.sendCall f ∉ (heartbeatTick s).2))
    ∧ (s.heartbeatAckReceived = true →
        (heartbeatTick s).1.heartbeatAckReceived = false
        ∧ Action.sendCall OutFrame.heartbeat ∈ (heartbeatTick s).2
        ∧ (∀ c, Action.closeSocket c ∉ (heartbeatTick s).2)) := by
  constructor
  · intro h
    constructor
    · simp [heartbeatTick, h, wsClose, hws]
    · intro f
      simp [heartbeatTick, h, wsClose, hws]
  · intro h
    refine ⟨?_, ?_, ?_⟩
    · simp only [heartbeatTick, h, if_true, send]
      split <;> rfl
    · simp only [heartbeatTick, h, if_true, send]
      split <;> simp
    · intro c
      simp only [heartbeatTick, h, if_true, send]
      split <;> simp

theorem heartbeat_tick_spec_witness :
    (liveState.heartbeatAckReceived = false →
        (heartbeatTick liveState).2 = [Action.closeSocket 4000]
        ∧ (∀ f, Action.sendCall f ∉ (heartbeatTick liveState).2))
    ∧ (liveState.heartbeatAckReceived = true →
        (heartbeatTick liveState).1.heartbeatAckReceived = false
        ∧ Action.sendCall OutFrame.heartbeat ∈ (heartbeatTick liveState).2
        ∧ (∀ c, Action.closeSocket c ∉ (heartbeatTick liveState).2)) :=
  heartbeat_tick_spec liveState { id := 1, readyState := ReadyState.OPEN } rfl

theorem jitter_round_bounds (b r : ℚ) (k m : ℤ)
    (hk : (k : ℚ) = b / 2) (hm : (m : ℚ) = 3 / 2 * b)
    (h0 : 0 ≤ r) (h1 : r < 1) (hb : 0 < b) :
    b / 2 ≤ ((round (b + (r - 1/2) * b) : ℤ) : ℚ)
    ∧ ((round (b + (r - 1/2) * b) : ℤ) : ℚ) ≤ 3/2 * b := by
  rw [round_eq]
  constructor
  · rw [← hk]
    have hle : k ≤ ⌊b + (r - 1/2) * b + 1/2⌋ := by
      rw [Int.le_floor, hk]
      nlinarith [mul_nonneg hb.le h0]
    exact_mod_cast hle
  · rw [← hm]
    have hlt : ⌊b + (r - 1/2) * b + 1/2⌋ < m + 1 := by
      rw [Int.floor_lt]
      push_cast
      rw [hm]
      nlinarith [mul_lt_mul_of_pos_left h1 hb]
    have hle : ⌊b + (r - 1/2) * b + 1/2⌋ ≤ m := by omega
    exact_mod_cast hle

theorem backoff_base_halves (n : Nat) :
    ∃ k m : ℤ,
      (k : ℚ) = min (1000 * 2 ^ n) MAX_BACKOFF_MS / 2
      ∧ (m : ℚ) = 3 / 2 * min (1000 * 2 ^ n) MAX_BACKOFF_MS := by
  refine ⟨min (500 * 2 ^ n) 15000, min (1500 * 2 ^ n) 45000, ?_, ?_⟩
  · push_cast
    rw [show ((15000 : ℚ)) = 30000 / 2 by norm_num,
        show ((500 : ℚ) * 2 ^ n) = 1000 * 2 ^ n / 2 by ring,
        min_div_div_right (by norm_num)]
    rfl
  · push_cast
    rw [show ((45000 : ℚ)) = 30000 * (3/2) by norm_num,
        show ((1500 : ℚ) * 2 ^ n) = 1000 * 2 ^ n * (3/2) by ring]
    rw [show (3 / 2 * min (1000 * 2 ^ n) MAX_BACKOFF_MS : ℚ)
          = min (1000 * 2 ^ n) MAX_BACKOFF_MS * (3/2) by ring]
    rw [min_mul_of_nonneg _ _ (by norm_num : (0:ℚ) ≤ 3/2)]
    rfl

theorem clearReconnectTimer_snd (s : ClientState) :
    ∀ a ∈ (clearReconnectTimer s).2, a = Action.clearReconnectTimerAct := by
  intro a ha
  unfold clearReconnectTimer at ha
  split at ha <;> simp_all

/-- C6: a default-backoff reconnect scheduled at attempt count `n` with random
source `r ∈ [0,1)` starts its timer with a delay inside
`[0.5 × min(1000·2ⁿ, 30000), 1.5 × min(1000·2ⁿ, 30000)]` after rounding. -/
theorem backoff_delay_in_jitter_range (s : ClientState) (r : ℚ)
    (hd : s.disposed = false) (h0 : 0 ≤ r) (h1 : r < 1) :
    (∃ d : ℤ, Action.startReconnectTimer d ∈ (scheduleReconnect s none r).2)
    ∧ ∀ d : ℤ, Action.startReconnectTimer d ∈ (scheduleReconnect s none r).2 →
        (1/2 : ℚ) * min (1000 * 2 ^ s.reconnectAttempts) MAX_BACKOFF_MS ≤ (d : ℚ)
        ∧ (d : ℚ) ≤ (3/2 : ℚ) * min (1000 * 2 ^ s.reconnectAttempts) MAX_BACKOFF_MS := by
  have hb : (0 : ℚ) < min (1000 * 2 ^ s.reconnectAttempts) MAX_BACKOFF_MS := by
    apply lt_min
    · positivity
    · norm_num [MAX_BACKOFF_MS]
  have htr : (scheduleReconnect s none r).2
      = (clearReconnectTimer s).2
        ++ [Action.startReconnectTimer
              (round (min (1000 * 2 ^ s.reconnectAttempts) MAX_BACKOFF_MS
                + (r - 1/2) * min (1000 * 2 ^ s.reconnectAttempts) MAX_BACKOFF_MS))] := by
    simp only [scheduleReconnect, hd, Bool.false_eq_true, if_false, Option.getD,
      clearReconnectTimer_fst]
  constructor
  · refine ⟨round (min (1000 * 2 ^ s.reconnectAttempts) MAX_BACKOFF_MS
        + (r - 1/2) * min (1000 * 2 ^ s.reconnectAttempts) MAX_BACKOFF_MS), ?_⟩
    rw [htr]
    simp
  · intro d hdmem
    rw [htr] at hdmem
    rcases List.mem_append.mp hdmem with hmem | hmem
    · exact absurd (clearReconnectTimer_snd s _ hmem) (by simp)
    · have hdeq : d = round (min (1000 * 2 ^ s.reconnectAttempts) MAX_BACKOFF_MS
          + (r - 1/2) * min (1000 * 2 ^ s.reconnectAttempts) MAX_BACKOFF_MS) := by
        simpa using hmem
      obtain ⟨k, m, hk, hm⟩ := backoff_base_halves s.reconnectAttempts
      have hbnd := jitter_round_bounds _ r k m hk hm h0 h1 hb
      subst hdeq
      constructor
      · calc (1/2 : ℚ) * min (1000 * 2 ^ s.reconnectAttempts) MAX_BACKOFF_MS
            = min (1000 * 2 ^ s.reconnectAttempts) MAX_BACKOFF_MS / 2 := by ring
          _ ≤ _ := hbnd.1
      · calc ((round (min (1000 * 2 ^ s.reconnectAttempts) MAX_BACKOFF_MS
                + (r - 1/2) * min (1000 * 2 ^ s.reconnectAttempts) MAX_BACKOFF_MS) : ℤ) : ℚ)
            ≤ 3/2 * min (1000 * 2 ^ s.reconnectAttempts) MAX_BACKOFF_MS := hbnd.2
          _ = (3/2 : ℚ) * min (1000 * 2 ^ s.reconnectAttempts) MAX_BACKOFF_MS := by ring

theorem handleMessage_not_frame (s : ClientState) (v : JsValue)
    (hdisp : s.disposed = false) (hv : isFrame v = false) :
    handleMessage s (some v) = (s, []) := by
  unfold handleMessage
  rw [hdisp]
  cases v with
  | obj fields =>
      simp only [isFrame] at hv
      rcases hop : objGet fields "op" with _ | w
      · simp [hop]
      · cases w <;> simp_all [hop]
  | null => simp
  | bool b => simp
  | num q => simp
  | str t => simp
  | arr l => simp

/-- C7: a transport message whose payload fails to parse as JSON, or parses
to a value without a numeric `op` field, is dropped: at most a warning is
logged, no handler fires, nothing is sent or closed, and the whole client
state is unchanged. -/
theorem malformed_message_dropped (s : ClientState) (p : Option JsValue)
    (h : p = none ∨ ∃ v, p = some v ∧ isFrame v = false) :
    (handleMessage s p).1 = s ∧ ∀ a ∈ (handleMessage s p).2, a = Action.logWarn := by
  rcases h with h | ⟨v, hp, hv⟩
  · subst h
    cases hdisp : s.disposed <;> constructor <;> simp [handleMessage, hdisp]
  · subst hp
    cases hdisp : s.disposed with
    | true => constructor <;> simp [handleMessage, hdisp]
    | false =>
        rw [handleMessage_not_frame s v hdisp hv]
        exact ⟨rfl, by simp⟩

theorem malformed_message_dropped_witness :
    ((none : Option JsValue) = none
      ∨ ∃ v, (none : Option JsValue) = some v ∧ isFrame v = false)
    ∧ (handleMessage liveState none).1 = liveState
    ∧ ∀ a ∈ (handleMessage liveState none).2, a = Action.logWarn :=
  ⟨Or.inl rfl,
    (malformed_message_dropped liveState none (Or.inl rfl)).1,
    (malformed_message_dropped liveState none (Or.inl rfl)).2⟩

theorem dispatchReady_seq (s : ClientState) (fields : List (String × JsValue)) :
    (dispatchReady s fields).1.seq = s.seq := by
  unfold dispatchReady
  split
  · rcases sessionIdOf (objGet fields "d") with _ | v
    · rfl
    · by_cases hv : jsTruthy v <;> simp [hv]
  · rfl

theorem dispatchReady_snd (s : ClientState) (fields : List (String × JsValue)) :
    ∀ k pl sq, Action.emitEvent k pl sq ∈ (dispatchReady s fields).2 →
      sq = (dispatchReady s fields).1.seq := by
  intro k pl sq hmem
  unfold dispatchReady at hmem ⊢
  split at hmem
  · next hc =>
      rw [if_pos hc]
      simp only [emitAct, List.mem_singleton] at hmem
      cases hmem
      rfl
  · simp at hmem

theorem dispatchEmitT_seq (s : ClientState) (fields : List (String × JsValue)) :
    ∀ k pl sq, Action.emitEvent k pl sq ∈ dispatchEmitT s fields → sq = s.seq := by
  intro k pl sq hmem
  unfold dispatchEmitT at hmem
  rcases ht : objGet fields "t" with _ | tv <;> rw [ht] at hmem
  · simp at hmem
  · by_cases htv : jsTruthy tv = true
    · simp only [htv, if_true, emitAct, List.mem_singleton] at hmem
      cases hmem
      rfl
    · simp [htv] at hmem

/-- C9: a dispatch frame with a non-null sequence field sets the stored
sequence counter to that value — for every event type — and every emission
derived from that frame carries the updated value to its handlers. -/
theorem dispatch_seq_updated_before_emit (s : ClientState)
    (fields : List (String × JsValue)) (v : JsValue)
    (hs : objGet fields "s" = some v) (hv : v ≠ JsValue.null) :
    (handleDispatch s fields).1.seq = some v
    ∧ ∀ k pl sq, Action.emitEvent k pl sq ∈ (handleDispatch s fields).2 →
        sq = some v := by
  have h1 : (dispatchSeqUpdate s fields).seq = some v := by
    unfold dispatchSeqUpdate
    rw [hs]
    cases v <;> simp_all
  have hfin : (handleDispatch s fields).1.seq = some v := by
    unfold handleDispatch
    rw [dispatchReady_seq, h1]
  refine ⟨hfin, ?_⟩
  intro k pl sq hmem
  unfold handleDispatch at hmem
  simp only [List.mem_append] at hmem
  rcases hmem with hmem | hmem
  · have := dispatchReady_snd (dispatchSeqUpdate s fields) fields k pl sq hmem
    rw [this, dispatchReady_seq, h1]
  · have := dispatchEmitT_seq (dispatchReady (dispatchSeqUpdate s fields) fields).1 fields k pl sq hmem
    rw [this, dispatchReady_seq, h1]

theorem dispatch_seq_updated_before_emit_witness :
    objGet [("op", JsValue.num 0), ("s", JsValue.num 5), ("t", JsValue.str "X")] "s"
        = some (JsValue.num 5)
    ∧ JsValue.num 5 ≠ JsValue.null
    ∧ (handleDispatch liveState
        [("op", JsValue.num 0), ("s", JsValue.num 5), ("t", JsValue.str "X")]).1.seq
        = some (JsValue.num 5)
    ∧ ∀ k pl sq, Action.emitEvent k pl sq ∈ (handleDispatch liveState
        [("op", JsValue.num 0), ("s", JsValue.num 5), ("t", JsValue.str "X")]).2 →
        sq = some (JsValue.num 5) := by
  have h := dispatch_seq_updated_before_emit liveState
    [("op", JsValue.num 0), ("s", JsValue.num 5), ("t", JsValue.str "X")]
    (JsValue.num 5) (by simp [objGet]) (by simp)
  exact ⟨by simp [objGet], by simp, h.1, h.2⟩

/-- C10: every outbound frame goes through `send`, which transmits on the
wire exactly when the current socket exists and is OPEN; otherwise the frame
is silently discarded, and `send` never changes any client state.  In
particular an Identify/Resume produced by a Hello whose token fetch resolves
after the socket left the OPEN state is dropped. -/
theorem send_gated_on_open_socket (s : ClientState) (f : OutFrame) (status : String)
    (i : ℚ) (t : String) :
    (send s f).1 = s
    ∧ (wsIsOpen s = true → (send s f).2 = [Action.sendCall f, Action.wireSend f])
    ∧ (wsIsOpen s = false → (send s f).2 = [Action.sendCall f])
    ∧ (∀ f', Action.wireSend f' ∈ (send s f).2 → wsIsOpen s = true ∧ f' = f)
    ∧ sendPresenceUpdate s status = send s (.presenceUpdate status)
    ∧ (wsIsOpen s = false →
        ∀ f', Action.wireSend f' ∉ (handleHello s i (some t)).2) := by
  refine ⟨?_, ?_, ?_, ?_, rfl, ?_⟩
  · unfold send; split <;> rfl
  · intro h; simp [send, h]
  · intro h; simp [send, h]
  · intro f' hmem
    unfold send at hmem
    split at hmem
    · next h => simpa using ⟨h, by simpa using hmem⟩
    · simp at hmem
  · intro h f'
    have hopen1 : wsIsOpen (startHeartbeat s i).1 = false := by
      rw [startHeartbeat_fst]
      unfold wsIsOpen at h ⊢
      simpa using h
    cases hd : s.disposed with
    | true => rw [handleHello_disposed_eq s i (some t) hd]; simp
    | false =>
        rw [handleHello_some_eq s i t hd]
        simp only [send, hopen1, Bool.false_eq_true, if_false, startHeartbeat_snd]
        split <;> simp

theorem send_gated_on_open_socket_witness :
    (send liveState OutFrame.heartbeat).1 = liveState
    ∧ (wsIsOpen liveState = true →
        (send liveState OutFrame.heartbeat).2
          = [Action.sendCall OutFrame.heartbeat, Action.wireSend OutFrame.heartbeat])
    ∧ (wsIsOpen liveState = false →
        (send liveState OutFrame.heartbeat).2 = [Action.sendCall OutFrame.heartbeat])
    ∧ (∀ f', Action.wireSend f' ∈ (send liveState OutFrame.heartbeat).2 →
        wsIsOpen liveState = true ∧ f' = OutFrame.heartbeat)
    ∧ sendPresenceUpdate liveState "online" = send liveState (.presenceUpdate "online")
    ∧ (wsIsOpen liveState = false →
        ∀ f', Action.wireSend f' ∉ (handleHello liveState 1000 (some "tok")).2) :=
  send_gated_on_open_socket liveState OutFrame.heartbeat "online" 1000 "tok"

theorem backoff_delay_in_jitter_range_witness :
    liveState.disposed = false ∧ (0 : ℚ) ≤ 0 ∧ (0 : ℚ) < 1
    ∧ ((∃ d : ℤ, Action.startReconnectTimer d ∈ (scheduleReconnect liveState none 0).2)
       ∧ ∀ d : ℤ, Action.startReconnectTimer d ∈ (scheduleReconnect liveState none 0).2 →
          (1/2 : ℚ) * min (1000 * 2 ^ liveState.reconnectAttempts) MAX_BACKOFF_MS ≤ (d : ℚ)
          ∧ (d : ℚ) ≤ (3/2 : ℚ) * min (1000 * 2 ^ liveState.reconnectAttempts) MAX_BACKOFF_MS) :=
  ⟨rfl, le_refl 0, by norm_num,
    backoff_delay_in_jitter_range liveState 0 rfl (le_refl 0) (by norm_num)⟩

/-- C3 counterexample: on a live, non-disposed client with an open socket and
no session, handling Hello with interval 1000 produces the token request as
the very first action and starts the heartbeat monitor only afterwards — the
heartbeat start does not precede the token request. -/
theorem hello_heartbeat_before_token_cex :
    (handleHello liveState 1000 (some "tok")).2
      = [Action.getToken, Action.startHeartbeatTimer 1000,
         Action.sendCall (OutFrame.identify "tok"),
         Action.wireSend (OutFrame.identify "tok")]
    ∧ List.findIdx isGetTokenAct (handleHello liveState 1000 (some "tok")).2 = 0
    ∧ List.findIdx isStartHeartbeatAct (handleHello liveState 1000 (some "tok")).2 = 1
    ∧ ¬ (List.findIdx isStartHeartbeatAct (handleHello liveState 1000 (some "tok")).2
          < List.findIdx isGetTokenAct (handleHello liveState 1000 (some "tok")).2) := by
  have h : (handleHello liveState 1000 (some "tok")).2
      = [Action.getToken, Action.startHeartbeatTimer 1000,
         Action.sendCall (OutFrame.identify "tok"),
         Action.wireSend (OutFrame.identify "tok")] := by
    rw [handleHello_some_eq liveState 1000 "tok" rfl]
    rw [startHeartbeat_snd, startHeartbeat_fst]
    simp [liveState, initState, helloAuthFrame, send, wsIsOpen]
  refine ⟨h, ?_, ?_, ?_⟩ <;> rw [h] <;> decide

/-- C3 amended: for every handled Hello, the handler requests the token as
its first action; the heartbeat monitor is started (only) afterwards, and
only when the client is still not disposed once the token fetch resolves. -/
theorem hello_requests_token_first (s : ClientState) (i : ℚ) (tok : Option String) :
    (handleHello s i tok).2.head? = some Action.getToken
    ∧ (Action.startHeartbeatTimer i ∈ (handleHello s i tok).2 ↔ s.disposed = false) := by
  cases hd : s.disposed with
  | true =>
      rw [handleHello_disposed_eq s i tok hd]
      simp
  | false =>
      cases tok with
      | none =>
          rw [handleHello_none_eq s i hd]
          exact ⟨rfl, by simp [startHeartbeat_snd]⟩
      | some t =>
          rw [handleHello_some_eq s i t hd]
          exact ⟨rfl, by simp [startHeartbeat_snd]⟩

/-- C4 counterexample: a rate-limited close (code 4008) on a live client with
random source 0 schedules the reconnect after 30000 ms — the fixed wait with
jitter applied — not after exactly 60000 ms. -/
theorem rate_limited_close_exact_wait_cex :
    Action.startReconnectTimer 30000 ∈ (onClose liveState 1 4008 "" 0).2
    ∧ Action.startReconnectTimer 60000 ∉ (onClose liveState 1 4008 "" 0).2 := by
  have h : (onClose liveState 1 4008 "" 0).2
      = [Action.detachCallbacks,
         Action.emitEvent (.str "close")
           (some (.obj [("code", .num 4008), ("reason", .str "")])) none,
         Action.startReconnectTimer 30000] := by
    unfold onClose scheduleReconnect clearReconnectTimer cleanup stopHeartbeat emitAct
    norm_num [liveState, initState, CLOSE_INVALID_TOKEN, CLOSE_RATE_LIMITED,
      RATE_LIMIT_WAIT_MS]
  rw [h]
  constructor
  · simp
  · simp only [List.mem_cons, List.not_mem_nil]
    push_neg
    refine ⟨by simp, by simp, ?_, by simp⟩
    intro hcontra
    have : (60000 : ℤ) = 30000 := by injection hcontra
    norm_num at this

theorem cleanup_snd (s : ClientState) :
    ∀ a ∈ (cleanup s).2,
      a = Action.clearHeartbeatTimerAct ∨ a = Action.detachCallbacks := by
  intro a ha
  unfold cleanup stopHeartbeat at ha
  cases hhb : s.heartbeatTimer <;> rcases hws : s.ws with _ | sock <;>
    simp [hhb, hws] at ha <;> tauto

/-- C4 amended: a rate-limited close on a live, current, non-disposed socket
always schedules the reconnect with base exactly `RATE_LIMIT_WAIT_MS`
(60000 ms) independent of the attempt counter, but perturbed by the same full
jitter as every backoff: the delay is `round(60000 + (r − ½)·60000)`, which
lies in `[30000, 90000]` for `r ∈ [0, 1)`. -/
theorem rate_limited_close_fixed_base (s : ClientState) (sock : Socket)
    (reason : String) (r : ℚ) (hws : s.ws = some sock) (hd : s.disposed = false)
    (hic : s.intentionalClose = false) (h0 : 0 ≤ r) (h1 : r < 1) :
    Action.startReconnectTimer (round (RATE_LIMIT_WAIT_MS + (r - 1/2) * RATE_LIMIT_WAIT_MS))
        ∈ (onClose s sock.id CLOSE_RATE_LIMITED reason r).2
    ∧ (∀ d : ℤ,
        Action.startReconnectTimer d ∈ (onClose s sock.id CLOSE_RATE_LIMITED reason r).2 →
        d = round (RATE_LIMIT_WAIT_MS + (r - 1/2) * RATE_LIMIT_WAIT_MS))
    ∧ 30000 ≤ round (RATE_LIMIT_WAIT_MS + (r - 1/2) * RATE_LIMIT_WAIT_MS)
    ∧ round (RATE_LIMIT_WAIT_MS + (r - 1/2) * RATE_LIMIT_WAIT_MS) ≤ 90000 := by
  have hd1 : (cleanup s).1.disposed = false := by rw [cleanup_fst]; exact hd
  have hic1 : (cleanup s).1.intentionalClose = false := by rw [cleanup_fst]; exact hic
  have hws1 : (cleanup s).1.ws = some sock := by rw [cleanup_fst]; exact hws
  have htr : (onClose s sock.id CLOSE_RATE_LIMITED reason r).2
      = (cleanup s).2
        ++ ([emitAct (cleanup s).1 (.str "close")
              (some (.obj [("code", .num CLOSE_RATE_LIMITED), ("reason", .str reason)]))]
          ++ ((clearReconnectTimer (cleanup s).1).2
            ++ [Action.startReconnectTimer
                  (round (RATE_LIMIT_WAIT_MS + (r - 1/2) * RATE_LIMIT_WAIT_MS))])) := by
    simp only [onClose, hws1, hd1, hic1]
    norm_num [emitAct, scheduleReconnect, hd1, clearReconnectTimer_fst,
      CLOSE_INVALID_TOKEN, CLOSE_RATE_LIMITED]
  refine ⟨?_, ?_, ?_, ?_⟩
  · rw [htr]; simp
  · intro d hmem
    rw [htr] at hmem
    simp only [List.mem_append] at hmem
    rcases hmem with hmem | hmem | hmem | hmem
    · rcases cleanup_snd s _ hmem with h | h <;> simp at h
    · simp [emitAct] at hmem
    · have := clearReconnectTimer_snd (cleanup s).1 _ hmem
      simp at this
    · simpa using hmem
  · have h := (jitter_round_bounds RATE_LIMIT_WAIT_MS r 30000 90000 (by norm_num [RATE_LIMIT_WAIT_MS])
      (by norm_num [RATE_LIMIT_WAIT_MS]) h0 h1 (by norm_num [RATE_LIMIT_WAIT_MS])).1
    rw [show (RATE_LIMIT_WAIT_MS / 2 : ℚ) = ((30000 : ℤ) : ℚ) by norm_num [RATE_LIMIT_WAIT_MS]]
      at h
    exact_mod_cast h
  · have h := (jitter_round_bounds RATE_LIMIT_WAIT_MS r 30000 90000 (by norm_num [RATE_LIMIT_WAIT_MS])
      (by norm_num [RATE_LIMIT_WAIT_MS]) h0 h1 (by norm_num [RATE_LIMIT_WAIT_MS])).2
    rw [show (3/2 * RATE_LIMIT_WAIT_MS : ℚ) = ((90000 : ℤ) : ℚ) by norm_num [RATE_LIMIT_WAIT_MS]]
      at h
    exact_mod_cast h

theorem rate_limited_close_fixed_base_witness :
    liveState.ws = some { id := 1, readyState := ReadyState.OPEN }
    ∧ liveState.disposed = false ∧ liveState.intentionalClose = false
    ∧ (0 : ℚ) ≤ 0 ∧ (0 : ℚ) < 1
    ∧ (Action.startReconnectTimer (round (RATE_LIMIT_WAIT_MS + ((0:ℚ) - 1/2) * RATE_LIMIT_WAIT_MS))
          ∈ (onClose liveState 1 CLOSE_RATE_LIMITED "" 0).2
       ∧ (∀ d : ℤ,
            Action.startReconnectTimer d ∈ (onClose liveState 1 CLOSE_RATE_LIMITED "" 0).2 →
            d = round (RATE_LIMIT_WAIT_MS + ((0:ℚ) - 1/2) * RATE_LIMIT_WAIT_MS))
       ∧ 30000 ≤ round (RATE_LIMIT_WAIT_MS + ((0:ℚ) - 1/2) * RATE_LIMIT_WAIT_MS)
       ∧ round (RATE_LIMIT_WAIT_MS + ((0:ℚ) - 1/2) * RATE_LIMIT_WAIT_MS) ≤ 90000) :=
  ⟨rfl, rfl, rfl, le_refl 0, by norm_num,
    rate_limited_close_fixed_base liveState { id := 1, readyState := ReadyState.OPEN }
      "" 0 rfl rfl rfl (le_refl 0) (by norm_num)⟩

/-- C8 counterexample: with two handlers registered for a key, the first of
which throws, the registry's emit loop invokes only one handler (the second
never runs) and the exception escapes into the transport callback. -/
theorem emit_throw_stops_siblings_cex :
    emitHandlers [HandlerResult.throws "boom", HandlerResult.ok] = (1, some "boom")
    ∧ (emitHandlers [HandlerResult.throws "boom", HandlerResult.ok]).1 < 2
    ∧ (emitHandlers [HandlerResult.throws "boom", HandlerResult.ok]).2 ≠ none := by
  refine ⟨rfl, by norm_num [emitHandlers], by simp [emitHandlers]⟩

/-- C8 amended: handlers subscribed through `useGatewayEvent` are registered
wrapped in the hook's per-handler try/catch (`stableHandler`), so during an
emission every wrapped handler runs — a throwing inner handler neither stops
its siblings nor lets the exception escape into the transport callback.  The
bare registry loop itself does not catch (see the counterexample). -/
theorem wrapped_handlers_all_run (hs : List HandlerResult) :
    emitHandlers (hs.map stableHandler) = (hs.length, none) := by
  induction hs with
  | nil => rfl
  | cons h rest ih => simp [stableHandler, emitHandlers, ih]

theorem disposed_permanent_connect_noop_witness :
    (disconnect (initState "http://a")).1.disposed = true
    ∧ (runOps (disconnect (initState "http://a")).1 [PublicOp.connectOp 7]).1.disposed = true
    ∧ (∀ a ∈ (runOps (disconnect (initState "http://a")).1 [PublicOp.connectOp 7]).2,
        isSpawnAction a = false)
    ∧ (∀ n, connect (runOps (disconnect (initState "http://a")).1 [PublicOp.connectOp 7]).1 n
          = ((runOps (disconnect (initState "http://a")).1 [PublicOp.connectOp 7]).1, [])) :=
  disposed_permanent_connect_noop (initState "http://a") [PublicOp.connectOp 7]

theorem hello_requests_token_first_witness :
    (handleHello liveState 1000 (some "tok")).2.head? = some Action.getToken
    ∧ (Action.startHeartbeatTimer 1000 ∈ (handleHello liveState 1000 (some "tok")).2
        ↔ liveState.disposed = false) :=
  hello_requests_token_first liveState 1000 (some "tok")

theorem wrapped_handlers_all_run_witness :
    emitHandlers ([HandlerResult.throws "boom", HandlerResult.ok].map stableHandler)
      = (2, none) :=
  wrapped_handlers_all_run [HandlerResult.throws "boom", HandlerResult.ok]

theorem send_fst (s : ClientState) (f : OutFrame) : (send s f).1 = s := by
  unfold send
  split <;> rfl

theorem wsClose_sessionId (s : ClientState) (c : Nat) :
    (wsClose s c).1.sessionId = s.sessionId := by
  unfold wsClose
  split <;> rfl

theorem scheduleReconnect_sessionId (s : ClientState) (d : Option ℚ) (r : ℚ) :
    (scheduleReconnect s d r).1.sessionId = s.sessionId := by
  simp only [scheduleReconnect, clearReconnectTimer_fst]
  split <;> rfl

theorem connect_sessionId (s : ClientState) (n : Nat) :
    (connect s n).1.sessionId = s.sessionId := by
  simp only [connect, clearReconnectTimer_fst, cleanup_fst]
  split
  · rfl
  · rcases hws : s.ws with _ | w <;> simp [hws]

theorem disconnect_sessionId (s : ClientState) :
    (disconnect s).1.sessionId = s.sessionId := by
  rw [disconnect_eq]

theorem onOpen_sessionId (s : ClientState) :
    (onOpen s).1.sessionId = s.sessionId := by
  unfold onOpen
  split <;> rfl

theorem heartbeatTick_sessionId (s : ClientState) :
    (heartbeatTick s).1.sessionId = s.sessionId := by
  unfold heartbeatTick
  split
  · rw [send_fst]
  · rw [wsClose_sessionId]

theorem sendPresenceUpdate_sessionId (s : ClientState) (status : String) :
    (sendPresenceUpdate s status).1.sessionId = s.sessionId := by
  unfold sendPresenceUpdate
  rw [send_fst]

theorem handleHello_sessionId (s : ClientState) (i : ℚ) (tok : Option String) :
    (handleHello s i tok).1.sessionId = s.sessionId := by
  cases hd : s.disposed with
  | true => rw [handleHello_disposed_eq s i tok hd]
  | false =>
      cases tok with
      | none =>
          rw [handleHello_none_eq s i hd]
          show (wsClose { (startHeartbeat s i).1 with intentionalClose := true }
            4000).1.sessionId = s.sessionId
          rw [wsClose_sessionId]
          show (startHeartbeat s i).1.sessionId = s.sessionId
          rw [startHeartbeat_fst]
      | some t =>
          rw [handleHello_some_eq s i t hd]
          show (send (startHeartbeat s i).1
            (helloAuthFrame (startHeartbeat s i).1 t)).1.sessionId = s.sessionId
          rw [send_fst, startHeartbeat_fst]

theorem dispatchSeqUpdate_sessionId (s : ClientState) (fields : List (String × JsValue)) :
    (dispatchSeqUpdate s fields).sessionId = s.sessionId := by
  unfold dispatchSeqUpdate
  split <;> rfl

theorem dispatchReady_sessionEvolves (s : ClientState) (fields : List (String × JsValue)) :
    sessionEvolves s.sessionId (dispatchReady s fields).1.sessionId := by
  unfold dispatchReady sessionEvolves
  split
  · rcases h : sessionIdOf (objGet fields "d") with _ | v
    · left
      simp [h]
    · by_cases hv : jsTruthy v = true
      · right; right
        exact ⟨v, by simp [h, hv], hv⟩
      · left
        simp [h, hv]
  · left; rfl

theorem handleDispatch_sessionEvolves (s : ClientState) (fields : List (String × JsValue)) :
    sessionEvolves s.sessionId (handleDispatch s fields).1.sessionId := by
  have h := dispatchReady_sessionEvolves (dispatchSeqUpdate s fields) fields
  rw [dispatchSeqUpdate_sessionId] at h
  exact h

theorem routeFrame_sessionEvolves (s : ClientState) (fields : List (String × JsValue))
    (op : ℚ) : sessionEvolves s.sessionId (routeFrame s fields op).1.sessionId := by
  unfold routeFrame
  split
  · split
    · left; rfl
    · left; rfl
  · split
    · exact handleDispatch_sessionEvolves s fields
    · split
      · left; rfl
      · split
        · left
          exact wsClose_sessionId s 4000
        · split
          · by_cases hres : jsTruthyOpt (objGet fields "d") = true
            · left
              simp only [hres, if_true]
              exact wsClose_sessionId s 4000
            · right; left
              simp only [hres]
              rw [if_neg (by simp [hres])]
              rw [wsClose_sessionId]
          · left; rfl

theorem handleMessage_sessionEvolves (s : ClientState) (p : Option JsValue) :
    sessionEvolves s.sessionId (handleMessage s p).1.sessionId := by
  unfold handleMessage
  split
  · left; rfl
  · split
    · left; rfl
    · split
      · split
        · exact routeFrame_sessionEvolves _ _ _
        · left; rfl
      · left; rfl

theorem onClose_sessionEvolves (s : ClientState) (sockId code : Nat) (reason : String)
    (r : ℚ) : sessionEvolves s.sessionId (onClose s sockId code reason r).1.sessionId := by
  simp only [onClose]
  split
  · left
    rw [cleanup_fst]
  · split
    · left
      rw [cleanup_fst]
    · split
      · right; left
        rw [scheduleReconnect_sessionId]
      · split
        · left
          rw [scheduleReconnect_sessionId, cleanup_fst]
        · left
          rw [scheduleReconnect_sessionId, cleanup_fst]

theorem sessionTruthy_of_evolves {o n : Option JsValue} (he : sessionEvolves o n)
    (ho : ∀ v, o = some v → jsTruthy v = true) :
    ∀ v, n = some v → jsTruthy v = true := by
  intro v hv
  rcases he with he | he | ⟨w, hw, hwt⟩
  · rw [he] at hv
    exact ho v hv
  · rw [he] at hv
    cases hv
  · rw [hw] at hv
    injection hv with h
    rw [← h]
    exact hwt

/-- Invariant: in every reachable state the stored session id, when present,
is a JS-truthy value (in particular never the empty string). -/
theorem reachable_sessionTruthy {s : ClientState} (h : Reachable s) : sessionTruthy s := by
  induction h with
  | init baseUrl =>
      intro v hv
      simp [initState] at hv
  | step hr hst ih =>
      cases hst with
      | connectS n =>
          exact sessionTruthy_of_evolves (Or.inl (connect_sessionId _ n)) ih
      | disconnectS =>
          exact sessionTruthy_of_evolves (Or.inl (disconnect_sessionId _)) ih
      | presenceS status =>
          exact sessionTruthy_of_evolves (Or.inl (sendPresenceUpdate_sessionId _ status)) ih
      | messageS p =>
          exact sessionTruthy_of_evolves (handleMessage_sessionEvolves _ p) ih
      | helloS i tok =>
          exact sessionTruthy_of_evolves (Or.inl (handleHello_sessionId _ i tok)) ih
      | tickS =>
          exact sessionTruthy_of_evolves (Or.inl (heartbeatTick_sessionId _)) ih
      | closeS sockId code reason rand =>
          exact sessionTruthy_of_evolves (onClose_sessionEvolves _ sockId code reason rand) ih
      | openS =>
          exact sessionTruthy_of_evolves (Or.inl (onOpen_sessionId _)) ih
      | reconnectFires n =>
          exact sessionTruthy_of_evolves (Or.inl (connect_sessionId _ n)) ih

theorem send_sendCall_mem (s : ClientState) (f : OutFrame) :
    Action.sendCall f ∈ (send s f).2 := by
  unfold send
  split <;> simp

theorem send_sendCall_eq (s : ClientState) (f g : OutFrame)
    (h : Action.sendCall g ∈ (send s f).2) : g = f := by
  unfold send at h
  split at h <;> simpa using h

theorem startHeartbeat_no_sendCall (s : ClientState) (i : ℚ) (g : OutFrame) :
    Action.sendCall g ∉ (startHeartbeat s i).2 := by
  rw [startHeartbeat_snd]
  cases hhb : s.heartbeatTimer <;> simp

/-- C2: on a reachable, non-disposed client whose token accessor yields a
token, the Hello handler hands `send` a Resume frame exactly when both the
stored session id and the stored sequence number are non-null at that moment,
the Resume carries exactly those stored values, and in every other case it
hands `send` an Identify frame instead. -/
theorem hello_resume_iff_session_and_seq (s : ClientState) (i : ℚ) (t : String)
    (hr : Reachable s) (hd : s.disposed = false) :
    ((∃ sid sq, Action.sendCall (OutFrame.resume t sid sq) ∈ (handleHello s i (some t)).2)
        ↔ (s.sessionId ≠ none ∧ s.seq ≠ none))
    ∧ (∀ sid sq, s.sessionId = some sid → s.seq = some sq →
        Action.sendCall (OutFrame.resume t sid sq) ∈ (handleHello s i (some t)).2)
    ∧ ((s.sessionId = none ∨ s.seq = none) →
        Action.sendCall (OutFrame.identify t) ∈ (handleHello s i (some t)).2) := by
  have hsid : (startHeartbeat s i).1.sessionId = s.sessionId := by rw [startHeartbeat_fst]
  have hsq : (startHeartbeat s i).1.seq = s.seq := by rw [startHeartbeat_fst]
  have htrace := handleHello_some_eq s i t hd
  have hmemAf : Action.sendCall (helloAuthFrame (startHeartbeat s i).1 t)
      ∈ (handleHello s i (some t)).2 := by
    rw [htrace]
    simp only [List.mem_cons, List.mem_append]
    right; right
    exact send_sendCall_mem _ _
  have huniq : ∀ g, Action.sendCall g ∈ (handleHello s i (some t)).2 →
      g = helloAuthFrame (startHeartbeat s i).1 t := by
    intro g hg
    rw [htrace] at hg
    simp only [List.mem_cons, List.mem_append] at hg
    rcases hg with hg | hg | hg
    · cases hg
    · exact absurd hg (startHeartbeat_no_sendCall s i g)
    · exact send_sendCall_eq _ _ _ hg
  rcases hS : s.sessionId with _ | sid <;> rcases hQ : s.seq with _ | sq
  · have hafi : helloAuthFrame (startHeartbeat s i).1 t = OutFrame.identify t := by
      unfold helloAuthFrame
      rw [hsid, hS, hsq, hQ]
    refine ⟨⟨?_, ?_⟩, ?_, ?_⟩
    · rintro ⟨sid', sq', hm⟩
      have := huniq _ hm
      rw [hafi] at this
      cases this
    · rintro ⟨ha, _⟩
      exact absurd rfl ha
    · intro sid' sq' h1 _
      cases h1
    · intro _
      exact hafi ▸ hmemAf
  · have hafi : helloAuthFrame (startHeartbeat s i).1 t = OutFrame.identify t := by
      unfold helloAuthFrame
      rw [hsid, hS, hsq, hQ]
    refine ⟨⟨?_, ?_⟩, ?_, ?_⟩
    · rintro ⟨sid', sq', hm⟩
      have := huniq _ hm
      rw [hafi] at this
      cases this
    · rintro ⟨ha, _⟩
      exact absurd rfl ha
    · intro sid' sq' h1 _
      cases h1
    · intro _
      exact hafi ▸ hmemAf
  · have hafi : helloAuthFrame (startHeartbeat s i).1 t = OutFrame.identify t := by
      unfold helloAuthFrame
      rw [hsid, hS, hsq, hQ]
    refine ⟨⟨?_, ?_⟩, ?_, ?_⟩
    · rintro ⟨sid', sq', hm⟩
      have := huniq _ hm
      rw [hafi] at this
      cases this
    · rintro ⟨_, hb⟩
      exact absurd rfl hb
    · intro sid' sq' _ h2
      cases h2
    · intro _
      exact hafi ▸ hmemAf
  · have htr : jsTruthy sid = true := reachable_sessionTruthy hr sid hS
    have hafr : helloAuthFrame (startHeartbeat s i).1 t = OutFrame.resume t sid sq := by
      unfold helloAuthFrame
      rw [hsid, hS, hsq, hQ]
      simp [htr]
    refine ⟨⟨?_, ?_⟩, ?_, ?_⟩
    · intro _
      exact ⟨by simp, by simp⟩
    · intro _
      exact ⟨sid, sq, hafr ▸ hmemAf⟩
    · intro sid' sq' h1 h2
      injection h1 with h1
      injection h2 with h2
      rw [← h1, ← h2]
      exact hafr ▸ hmemAf
    · rintro (ha | hb)
      · cases ha
      · cases hb

theorem hello_resume_iff_session_and_seq_witness :
    Reachable (initState "http://example.com")
    ∧ (initState "http://example.com").disposed = false
    ∧ (((∃ sid sq, Action.sendCall (OutFrame.resume "tok" sid sq)
            ∈ (handleHello (initState "http://example.com") 1000 (some "tok")).2)
          ↔ ((initState "http://example.com").sessionId ≠ none
             ∧ (initState "http://example.com").seq ≠ none))
       ∧ (∀ sid sq, (initState "http://example.com").sessionId = some sid →
            (initState "http://example.com").seq = some sq →
            Action.sendCall (OutFrame.resume "tok" sid sq)
              ∈ (handleHello (initState "http://example.com") 1000 (some "tok")).2)
       ∧ (((initState "http://example.com").sessionId = none
            ∨ (initState "http://example.com").seq = none) →
            Action.sendCall (OutFrame.identify "tok")
              ∈ (handleHello (initState "http://example.com") 1000 (some "tok")).2)) :=
  ⟨Reachable.init "http://example.com", rfl,
    hello_resume_iff_session_and_seq (initState "http://example.com") 1000 "tok"
      (Reachable.init "http://example.com") rfl⟩

end Gateway
